import Mathlib

/-!
Verification of the NMS discovery and monitoring engine.

This file gives a shallow embedding, in Lean, of the pure computational
core of the repository: device-type classification, status-text
normalisation, interface-rate calculation, topology construction,
link heuristics, the table-walk result parser and the discovery
orchestration around range parsing.  Network and subprocess effects are
modelled by explicit oracle parameters (the value a query returned, or
the fact that it failed), and Python exceptions by Option/Except results.
The theorems at the end of the file settle the stated properties of these
functions.
-/

namespace NMS

/-- Lowercase a string character by character.  This models Python
str.lower on the ASCII strings manipulated by the source (keyword lists
and status words are all ASCII). -/
def lowerStr (s : String) : String :=
  String.mk (s.data.map Char.toLower)

/-- Check whether the first character list occurs at the head of the
second. -/
def leadsWith : List Char → List Char → Bool
  | [], _ => true
  | _ :: _, [] => false
  | a :: as, b :: bs => a == b && leadsWith as bs

/-- Worker for hasSub: scan every suffix of the haystack. -/
def hasSubAux (needle : List Char) : List Char → Bool
  | [] => needle.isEmpty
  | c :: rest => leadsWith needle (c :: rest) || hasSubAux needle rest

/-- Contiguous-substring test, modelling the Python expression
needle in haystack on strings. -/
def hasSub (needle hay : String) : Bool :=
  hasSubAux needle.data hay.data

/-- Model of Python any(keyword in desc for keyword in keywords). -/
def anyKeyword (desc : String) (keywords : List String) : Bool :=
  keywords.any (fun k => hasSub k desc)

/-- Worker for splitChar, accumulating the current fragment reversed. -/
def splitCharAux (sep : Char) : List Char → List Char → List String
  | [], acc => [String.mk acc.reverse]
  | c :: rest, acc =>
    if c = sep then String.mk acc.reverse :: splitCharAux sep rest []
    else splitCharAux sep rest (c :: acc)

/-- Split a string on every occurrence of a single-character separator,
as Python str.split does with a one-character argument: no collapsing of
adjacent separators, and the empty string yields one empty fragment. -/
def splitChar (sep : Char) (s : String) : List String :=
  splitCharAux sep s.data []

/-- Strip leading and trailing whitespace, modelling Python str.strip
with no argument on the ASCII output handled by the source. -/
def pyStrip (s : String) : String :=
  String.mk (((s.data.dropWhile Char.isWhitespace).reverse.dropWhile
    Char.isWhitespace).reverse)

/-- Strip every leading and trailing occurrence of one character,
modelling Python str.strip with a one-character argument. -/
def stripChar (ch : Char) (s : String) : String :=
  String.mk (((s.data.dropWhile (· == ch)).reverse.dropWhile (· == ch)).reverse)

/-- Value of a nonempty all-digit character list, none otherwise. -/
def digitsToNat (cs : List Char) : Option Nat :=
  if cs = [] then none
  else if cs.all Char.isDigit then
    some (cs.foldl (fun acc c => acc * 10 + (c.toNat - 48)) 0)
  else none

/-- Model of Python int applied to a string: optional surrounding
whitespace, an optional sign, then one or more decimal digits; anything
else raises ValueError, modelled as none.  (Underscore digit grouping,
which Python also accepts, never appears in the values this program
parses.) -/
def pyInt (s : String) : Option Int :=
  match (pyStrip s).data with
  | [] => none
  | c :: rest =>
    if c = '+' then (digitsToNat rest).map Int.ofNat
    else if c = '-' then (digitsToNat rest).map (fun n => -(n : Int))
    else (digitsToNat (c :: rest)).map Int.ofNat

/-- First-match association-list lookup, modelling Python dict access
and the in operator on dict keys. -/
def alistFind {α : Type} (k : String) : List (String × α) → Option α
  | [] => none
  | (k2, v) :: rest => if k2 = k then some v else alistFind k rest

/-- Insert-or-overwrite, modelling Python dict item assignment: an
existing key keeps its position and takes the new value, a new key is
appended. -/
def upsert {α : Type} (k : String) (v : α) : List (String × α) → List (String × α)
  | [] => [(k, v)]
  | (k2, v2) :: rest =>
    if k2 = k then (k, v) :: rest else (k2, v2) :: upsert k v rest

/-- Typed value produced by the table-walk parser: integers stay
integers, everything else is a string. -/
inductive WVal where
  | vInt (n : Int)
  | vStr (s : String)
  deriving DecidableEq

/-- Keyword lists of DeviceDiscovery.identify_device_type in
src/nms_discovery.py, in source order. -/
def switchKeywords : List String := ["switch", "catalyst", "nexus"]

/-- Router keyword list of identify_device_type. -/
def routerKeywords : List String := ["router", "asr", "isr"]

/-- Host keyword list of identify_device_type. -/
def hostKeywords : List String := ["linux", "ubuntu", "centos", "host"]

/-- Virtual-switch keyword list of identify_device_type. -/
def virtualSwitchKeywords : List String := ["mininet", "openvswitch", "ovs"]

/-- Firewall keyword list of identify_device_type. -/
def firewallKeywords : List String := ["firewall", "asa", "pix"]

/-- Access-point keyword list of identify_device_type. -/
def accessPointKeywords : List String := ["access point", "ap", "wireless"]

/-- The keyword cascade of identify_device_type, applied to the already
lowercased description. -/
def classifyDescription (desc_lower : String) : String :=
  if anyKeyword desc_lower switchKeywords then "switch"
  else if anyKeyword desc_lower routerKeywords then "router"
  else if anyKeyword desc_lower hostKeywords then "host"
  else if anyKeyword desc_lower virtualSwitchKeywords then "virtual_switch"
  else if anyKeyword desc_lower firewallKeywords then "firewall"
  else if anyKeyword desc_lower accessPointKeywords then "access_point"
  else "unknown"

/-- DeviceDiscovery.identify_device_type from src/nms_discovery.py.
The argument is the system description; none models Python None, and the
empty string is falsy in Python, so both yield unknown. -/
def identify_device_type (system_desc : Option String) : String :=
  match system_desc with
  | none => "unknown"
  | some s => if s = "" then "unknown" else classifyDescription (lowerStr s)

/-- The status_map lookup with default of get_status_text:
the dict access status_map.get(int(status), the unknown default). -/
def statusMapGet (n : Int) : String :=
  if n = 1 then "up" else if n = 2 then "down" else if n = 3 then "testing"
  else "unknown"

/-- SimpleSnmpMonitor.get_status_text from src/simple_snmp_monitor.py.
Input values come from the table-walk parser, so they are integers or
strings (WVal).  A string containing an opening parenthesis has the text
between the first parenthesis pair extracted and parsed as an integer;
if that parse fails the lowercased original string is returned.  A plain
string is accepted if it already reads up, down or testing, otherwise it
is parsed as an integer, unparseable input giving unknown. -/
def get_status_text (status : WVal) : String :=
  match status with
  | .vInt n => statusMapGet n
  | .vStr s =>
    if hasSub "(" s then
      match (splitChar '(' s).drop 1 with
      | [] => lowerStr s
      | second :: _ =>
        match pyInt ((splitChar ')' second).headD "") with
        | some n => statusMapGet n
        | none => lowerStr s
    else
      let status_lower := lowerStr s
      if status_lower = "up" ∨ status_lower = "down" ∨ status_lower = "testing" then
        status_lower
      else
        match pyInt s with
        | some n => statusMapGet n
        | none => "unknown"

/-- One entry of the interfaces mapping that snmp_probe stores on a
Device record (src/nms_discovery.py, lines 71 to 80): the status fields
hold the already-normalised status text. -/
structure Interface where
  name : String
  admin_status : String
  oper_status : String
  speed : Int
  in_octets : Int
  out_octets : Int
  in_packets : Int
  out_packets : Int
  deriving DecidableEq

/-- The device_info record built by DeviceDiscovery.snmp_probe.  The
system_uptime field is Option String because the source stores the raw
query result for it, which is Python None when the query failed.  The
interfaces field is an association list from interface index to
Interface, in dict insertion order. -/
structure Device where
  ip : String
  system_name : String
  system_description : String
  system_uptime : Option String
  system_contact : String
  system_location : String
  discovered_at : String
  device_type : String
  snmp_community : String
  interfaces : List (String × Interface)
  neighbors : List String
  deriving DecidableEq

/-- The active-interface filter inside DeviceDiscovery.have_interconnect:
operationally up, nonzero inbound octets, and an eth-style name. -/
def activeEthInterfaces (d : Device) : List Interface :=
  (d.interfaces.map Prod.snd).filter
    (fun iface => iface.oper_status == "up" && decide (iface.in_octets > 0) &&
      hasSub "eth" iface.name)

/-- DeviceDiscovery.have_interconnect from src/nms_discovery.py: two
devices are considered interconnected when each has more than one
active eth-named interface. -/
def have_interconnect (d1 d2 : Device) : Bool :=
  decide ((activeEthInterfaces d1).length > 1) &&
    decide ((activeEthInterfaces d2).length > 1)

/-- One entry of the stats mapping returned by
SNMPMonitor.get_interface_statistics (src/snmp_monitor.py). -/
structure Counters where
  in_octets : Int
  in_packets : Int
  in_errors : Int
  out_octets : Int
  out_packets : Int
  out_errors : Int
  deriving DecidableEq

/-- The per-interface rate record built by SNMPMonitor.calculate_rates.
Python floats are modelled by exact rationals; every arithmetic step the
source performs on these values (difference, division, max, the fixed
Mbps transform) is exact on the concrete inputs of this development. -/
structure RateSample where
  in_bps : ℚ
  out_bps : ℚ
  in_pps : ℚ
  out_pps : ℚ
  in_mbps : ℚ
  out_mbps : ℚ
  deriving DecidableEq

/-- Python max of two rationals: the second argument when it is
strictly larger, the first otherwise. -/
def pyMax (a b : ℚ) : ℚ :=
  if a < b then b else a

/-- The loop body of calculate_rates for one index present in both
snapshots: clamped per-second rates and the derived Mbps fields. -/
def rateSampleOf (curr prev : Counters) (time_diff : ℚ) : RateSample :=
  let in_bps := pyMax 0 (((curr.in_octets - prev.in_octets : Int) : ℚ) / time_diff)
  let out_bps := pyMax 0 (((curr.out_octets - prev.out_octets : Int) : ℚ) / time_diff)
  let in_pps := pyMax 0 (((curr.in_packets - prev.in_packets : Int) : ℚ) / time_diff)
  let out_pps := pyMax 0 (((curr.out_packets - prev.out_packets : Int) : ℚ) / time_diff)
  { in_bps := in_bps, out_bps := out_bps, in_pps := in_pps, out_pps := out_pps,
    in_mbps := in_bps * 8 / 1000000, out_mbps := out_bps * 8 / 1000000 }

/-- SNMPMonitor.calculate_rates from src/snmp_monitor.py.  The source
iterates over the current snapshot, computes clamped rates for every
index also present in the previous snapshot, and performs Python
division by time_diff, which raises ZeroDivisionError when time_diff is
zero; that exception, which the function does not catch, is modelled by
the error result. -/
def calculate_rates : List (String × Counters) → List (String × Counters) → ℚ →
    Except Unit (List (String × RateSample))
  | [], _, _ => .ok []
  | (index, curr) :: rest, previous_stats, time_diff =>
    match alistFind index previous_stats with
    | none => calculate_rates rest previous_stats time_diff
    | some prev =>
      if time_diff = 0 then .error ()
      else
        match calculate_rates rest previous_stats time_diff with
        | .error e => .error e
        | .ok rates => .ok ((index, rateSampleOf curr prev time_diff) :: rates)

/-- One node of the topology graph built by
DeviceDiscovery.build_topology.  The uptime field is Option String for
the same reason as Device.system_uptime. -/
structure Node where
  id : String
  label : String
  type : String
  ip : String
  interfaces : Nat
  status : String
  uptime : Option String
  description : String
  location : String
  deriving DecidableEq

/-- One link of the topology graph.  The interface and status keys are
present only on the links of the synthetic Mininet path, hence the
Option fields. -/
structure Link where
  source : String
  target : String
  type : String
  bandwidth : String
  interface : Option String
  status : Option String
  deriving DecidableEq

/-- The node/link graph produced by build_topology. -/
structure Topology where
  nodes : List Node
  links : List Link
  deriving DecidableEq

/-- The node built for a discovered device at the top of build_topology.
The source reads system_uptime, system_description and system_location
with dict get defaults, but snmp_probe always stores those keys, so the
stored values are used directly. -/
def mkBaseNode (ip : String) (d : Device) : Node :=
  { id := ip, label := d.system_name, type := d.device_type, ip := ip,
    interfaces := d.interfaces.length,
    status := if d.interfaces.isEmpty then "unknown" else "up",
    uptime := d.system_uptime, description := d.system_description,
    location := d.system_location }

/-- The interface-name filter of the Mininet special case in
build_topology. -/
def isMininetIfName (n : String) : Bool :=
  hasSub "s1-eth" n || hasSub "s2-eth" n || hasSub "s3-eth" n

/-- The enumerate loop of the Mininet branch of build_topology: one host
node and one host link per matching switch interface, numbered from 1. -/
def mkHostNodesLinks : Nat → List Interface → List Node × List Link
  | _, [] => ([], [])
  | i, iface :: rest =>
    let host_id := "h" ++ toString (i + 1)
    let node : Node :=
      { id := host_id, label := host_id, type := "host",
        ip := "10.0.0." ++ toString (i + 1), interfaces := 1,
        status := if iface.oper_status = "up" then "up" else "down",
        uptime := some "Unknown",
        description := "Mininet Host " ++ toString (i + 1), location := "Virtual" }
    let link : Link :=
      { source := host_id, target := "s1", type := "host_link",
        bandwidth := "100Mbps", interface := some iface.name,
        status := some iface.oper_status }
    let (ns, ls) := mkHostNodesLinks (i + 1) rest
    (node :: ns, link :: ls)

/-- DeviceDiscovery.same_subnet: the first three dotted components of
the two addresses agree. -/
def same_subnet (ip1 ip2 : String) : Bool :=
  (splitChar '.' ip1).take 3 == (splitChar '.' ip2).take 3

/-- The nested switch-pair loop of DeviceDiscovery.detect_links: every
unordered pair, in iteration order, linked when have_interconnect
holds. -/
def switchPairLinks : List (String × Device) → List Link
  | [] => []
  | p :: rest =>
    rest.filterMap (fun q =>
      if have_interconnect p.2 q.2 then
        some { source := p.1, target := q.1, type := "switch_link",
               bandwidth := "100Mbps", interface := none, status := none }
      else none) ++ switchPairLinks rest

/-- DeviceDiscovery.detect_links from src/nms_discovery.py, as the list
of links it appends: switch-to-switch links first, then for each host
device a link to the first switch device sharing its /24 prefix. -/
def detect_links (reg : List (String × Device)) : List Link :=
  let switch_devices := reg.filter (fun p =>
    p.2.device_type == "switch" || p.2.device_type == "virtual_switch")
  let host_devices := reg.filter (fun p => p.2.device_type == "host")
  switchPairLinks switch_devices ++
    host_devices.filterMap (fun hp =>
      (switch_devices.find? (fun sp => same_subnet hp.1 sp.1)).map (fun sp =>
        { source := hp.1, target := sp.1, type := "host_link",
          bandwidth := "10Mbps", interface := none, status := none }))

/-- DeviceDiscovery.build_topology from src/nms_discovery.py, as a pure
function of the discovered-devices registry.  The Mininet branch is
taken when the registry holds exactly one device keyed 127.0.0.1 whose
interface names match the switch-port patterns; that branch replaces
the original localhost node by one synthetic switch node and per-port
host nodes (the source filters the localhost node out twice, which is
idempotent), and general link detection runs only otherwise. -/
def build_topology (reg : List (String × Device)) : Topology :=
  let nodes := reg.map (fun p => mkBaseNode p.1 p.2)
  match (if reg.length == 1 then alistFind "127.0.0.1" reg else none) with
  | some localhost_device =>
    match (localhost_device.interfaces.map Prod.snd).filter
        (fun iface => isMininetIfName iface.name) with
    | [] => { nodes := nodes, links := detect_links reg }
    | mininet_interfaces@(_ :: _) =>
      let switch_node : Node :=
        { id := "s1", label := "s1", type := "switch", ip := "127.0.0.1",
          interfaces := mininet_interfaces.length, status := "up",
          uptime := localhost_device.system_uptime,
          description := "Mininet Switch", location := "Virtual" }
      let (host_nodes, host_links) := mkHostNodesLinks 0 mininet_interfaces
      let nodes2 := (nodes ++ switch_node :: host_nodes).filter
        (fun n => n.id != "127.0.0.1")
      { nodes := nodes2, links := host_links }
  | none => { nodes := nodes, links := detect_links reg }

/-- One entry of the mapping returned by
SimpleSnmpMonitor.get_interfaces, restricted to the fields snmp_probe
reads from it. -/
structure IfaceInfo where
  name : String
  admin_status_text : String
  oper_status_text : String
  speed : Int
  deriving DecidableEq

/-- One entry of the mapping returned by
SimpleSnmpMonitor.get_interface_stats, as read by snmp_probe. -/
structure IfaceStats where
  in_octets : Int
  out_octets : Int
  in_packets : Int
  out_packets : Int
  deriving DecidableEq

/-- The outcomes of the network queries snmp_probe issues: each
snmp_get result is Option String (none models the source returning
Python None on failure), and the combined get_interfaces together with
get_interface_stats call is Except-valued because an exception raised
there is caught by the inner try of snmp_probe.  The now field models
the datetime.now timestamp. -/
structure ProbeEnv where
  sysDescr : Option String
  sysName : Option String
  sysUptime : Option String
  sysContact : Option String
  sysLocation : Option String
  ifaceData : Except Unit (List (String × IfaceInfo) × List (String × IfaceStats))
  now : String

/-- Python or on an optional string value with a string default: both
None and the empty string are falsy and select the default. -/
def pyOrStr (v : Option String) (d : String) : String :=
  match v with
  | none => d
  | some s => if s = "" then d else s

/-- The interface table snmp_probe assembles: empty when the combined
get_interfaces and get_interface_stats call raised, otherwise one entry
per interface in the description table, with missing stats entries
defaulting to zero. -/
def probeInterfacesOf
    (ifaceData : Except Unit (List (String × IfaceInfo) × List (String × IfaceStats))) :
    List (String × Interface) :=
  match ifaceData with
  | .error _ => []
  | .ok (interfaces, stats) =>
    interfaces.map (fun p =>
      let interface_stats := (alistFind p.1 stats).getD
        { in_octets := 0, out_octets := 0, in_packets := 0, out_packets := 0 }
      (p.1,
       { name := p.2.name,
         admin_status := p.2.admin_status_text,
         oper_status := p.2.oper_status_text,
         speed := p.2.speed,
         in_octets := interface_stats.in_octets,
         out_octets := interface_stats.out_octets,
         in_packets := interface_stats.in_packets,
         out_packets := interface_stats.out_packets }))

/-- The device_info record snmp_probe assembles once the description
query has returned a truthy value. -/
def probeDeviceOf (community : String) (env : ProbeEnv) (ip : String)
    (system_desc : String) : Device :=
  { ip := ip,
    system_name := pyOrStr env.sysName ("Device-" ++ ip),
    system_description := system_desc,
    system_uptime := env.sysUptime,
    system_contact := pyOrStr env.sysContact "Unknown",
    system_location := pyOrStr env.sysLocation "Unknown",
    discovered_at := env.now,
    device_type := identify_device_type (some system_desc),
    snmp_community := community,
    interfaces := probeInterfacesOf env.ifaceData,
    neighbors := [] }

/-- DeviceDiscovery.snmp_probe from src/nms_discovery.py.  A falsy
system description aborts the probe with none; otherwise a Device is
assembled, with Python or fallbacks for name, contact and location, the
raw uptime result stored as is, and a failure while gathering interface
or counter tables leaving the interface mapping empty. -/
def snmp_probe (community : String) (env : ProbeEnv) (ip : String) : Option Device :=
  match env.sysDescr with
  | none => none
  | some system_desc =>
    if system_desc = "" then none
    else some (probeDeviceOf community env ip system_desc)

/-- Match a literal character list at the head of the input, returning
the remainder. -/
def matchLit : List Char → List Char → Option (List Char)
  | [], rest => some rest
  | _ :: _, [] => none
  | p :: ps, c :: cs => if p = c then matchLit ps cs else none

/-- The value-type words of the table-walk line pattern in
SimpleSnmpMonitor.snmp_walk, in alternation order (no word is a prefix
of another, so the alternation is deterministic). -/
def walkTypeWords : List String := ["STRING", "INTEGER", "Counter32", "Counter64",
  "Gauge32", "Timeticks"]

/-- Match any of a list of literal words at the head of the input. -/
def matchAnyWord : List String → List Char → Option (List Char)
  | [], _ => none
  | w :: ws, cs =>
    match matchLit w.data cs with
    | some rest => some rest
    | none => matchAnyWord ws cs

/-- Attempt the snmp_walk line pattern at one position: a dot, one or
more digits (the captured index), the literal sequence of an equals
sign between spaces, a type word, a colon and space, then a nonempty
remainder (the captured value). -/
def tryMatchAt (cs : List Char) : Option (String × String) :=
  match cs with
  | '.' :: rest =>
    let digits := rest.takeWhile Char.isDigit
    if digits = [] then none
    else
      match matchLit " = ".data (rest.drop digits.length) with
      | none => none
      | some afterEq =>
        match matchAnyWord walkTypeWords afterEq with
        | none => none
        | some afterType =>
          match matchLit ": ".data afterType with
          | none => none
          | some value =>
            if value = [] then none
            else some (String.mk digits, String.mk value)
  | _ => none

/-- Leftmost search of the snmp_walk line pattern, modelling re.search:
the pattern is tried at every position from the left. -/
def walkSearch : List Char → Option (String × String)
  | [] => none
  | c :: rest =>
    match tryMatchAt (c :: rest) with
    | some r => some r
    | none => walkSearch rest

/-- The value post-processing of snmp_walk: strip whitespace and
surrounding double quotes, then try integer conversion. -/
def processWalkValue (v : String) : WVal :=
  let cleaned := stripChar '"' (pyStrip v)
  match pyInt cleaned with
  | some n => .vInt n
  | none => .vStr cleaned

/-- The line loop of snmp_walk: nonblank lines whose pattern search
succeeds contribute an index-to-value entry, later lines overwriting
earlier entries with the same index. -/
def parseWalkLines (lines : List String) : List (String × WVal) :=
  lines.foldl (fun results line =>
    if pyStrip line = "" then results
    else
      match walkSearch line.data with
      | some (index, value) => upsert index (processWalkValue value) results
      | none => results) []

/-- SimpleSnmpMonitor.snmp_walk from src/simple_snmp_monitor.py, as a
function of the run_snmp_command result (none models the command
failing: nonzero exit, timeout, or an exception).  The source starts
from an empty results dict and fills it only when the output is truthy,
so a failed command and an empty successful output both yield the empty
mapping. -/
def snmp_walk (output : Option String) : List (String × WVal) :=
  match output with
  | none => []
  | some out =>
    if out = "" then [] else parseWalkLines (splitChar '\n' out)

/-- Parse one dotted-decimal octet as Python ipaddress does: nonempty,
all digits, no extra leading zero, value at most 255. -/
def parseOctet (s : String) : Option Nat :=
  match digitsToNat s.data with
  | none => none
  | some n =>
    if s.data.length > 1 ∧ s.data.headD '0' = '0' then none
    else if n ≤ 255 then some n else none

/-- Parse a dotted-quad IPv4 address to its 32-bit numeric value. -/
def parseIPv4 (s : String) : Option Nat :=
  match splitChar '.' s with
  | [a, b, c, d] =>
    match parseOctet a, parseOctet b, parseOctet c, parseOctet d with
    | some x, some y, some z, some w => some (((x * 256 + y) * 256 + z) * 256 + w)
    | _, _, _, _ => none
  | _ => none

/-- Parse a decimal prefix length of at most 32. -/
def parsePrefixLen (s : String) : Option Nat :=
  match digitsToNat s.data with
  | some n => if n ≤ 32 then some n else none
  | none => none

/-- Zero the host bits of an address for a given prefix length. -/
def maskNet (a p : Nat) : Nat :=
  (a / 2 ^ (32 - p)) * 2 ^ (32 - p)

/-- Model of Python IPv4Network(s, strict=False) on the address and
address/prefix forms this program passes it: a bare dotted quad is a
/32, one slash separates address from a decimal prefix length, host
bits are masked off, and anything else raises ValueError, modelled as
none.  (Dotted netmask suffixes, also accepted by the library, are not
exercised by the program and not modelled.) -/
def parseIPv4Network (s : String) : Option (Nat × Nat) :=
  match splitChar '/' s with
  | [addr] => (parseIPv4 addr).map (fun a => (a, 32))
  | [addr, pl] =>
    match parseIPv4 addr, parsePrefixLen pl with
    | some a, some p => some (maskNet a p, p)
    | _, _ => none
  | _ => none

/-- Render a 32-bit numeric address back to dotted-quad form. -/
def natToIp (n : Nat) : String :=
  toString (n / 16777216 % 256) ++ "." ++ toString (n / 65536 % 256) ++ "." ++
    toString (n / 256 % 256) ++ "." ++ toString (n % 256)

/-- The hosts iterator of IPv4Network: every address for prefixes 31
and 32, all but the network and broadcast addresses otherwise. -/
def hostsOf (net : Nat × Nat) : List Nat :=
  let size := 2 ^ (32 - net.2)
  if net.2 ≥ 31 then (List.range size).map (fun k => net.1 + k)
  else (List.range (size - 2)).map (fun k => net.1 + 1 + k)

/-- Python dict.update on the registry: existing keys keep their
position and take the new value, new keys are appended in order. -/
def updateReg (reg upd : List (String × Device)) : List (String × Device) :=
  reg.map (fun p => (p.1, (alistFind p.1 upd).getD p.2)) ++
    upd.filter (fun p => (alistFind p.1 reg).isNone)

/-- The probing effects of discover_network_range: the ping result per
address (every ping failure mode collapses to false) and the snmp_probe
result per reachable address (a worker exception is caught and the
device skipped, which coincides with a none result). -/
structure DiscoverEnv where
  reachable : String → Bool
  probe : String → Option Device

/-- DeviceDiscovery.discover_network_range from src/nms_discovery.py,
returning the mapping the call returns together with the updated
discovered-devices registry.  A range that IPv4Network rejects is
caught, the function returns an empty mapping, and the registry is
untouched.  Worker completion order, unspecified in the source, is
modelled as address order; no settled property depends on it. -/
def discover_network_range (env : DiscoverEnv) (network_range : String)
    (reg : List (String × Device)) :
    List (String × Device) × List (String × Device) :=
  match parseIPv4Network network_range with
  | none => ([], reg)
  | some net =>
    let ping_results := ((hostsOf net).map natToIp).filter env.reachable
    let discovered := ping_results.filterMap (fun ip =>
      (env.probe ip).map (fun d => (ip, d)))
    (discovered, updateReg reg discovered)

deriving instance DecidableEq for Except

/-!
Helper lemmas, followed by the theorems settling the claims.
-/

/-- Every branch of the status table lands in the four canonical
values. -/
theorem statusMapGet_mem (n : Int) :
    statusMapGet n ∈ ["up", "down", "testing", "unknown"] := by
  unfold statusMapGet
  split
  · simp
  · split
    · simp
    · split <;> simp

/-- Every branch of the keyword cascade lands in the seven device
types. -/
theorem classifyDescription_mem (dl : String) :
    classifyDescription dl ∈
      ["switch", "router", "host", "virtual_switch", "firewall", "access_point",
       "unknown"] := by
  unfold classifyDescription
  repeat' split
  all_goals simp

/-- The lowercasing map preserves emptiness of a string. -/
theorem lowerStr_eq_empty_iff (s : String) : lowerStr s = "" ↔ s = "" := by
  cases s with
  | mk data =>
    cases data with
    | nil => rfl
    | cons c cs =>
      constructor
      · intro h
        exact absurd (congrArg String.data h) (by simp [lowerStr])
      · intro h
        exact absurd (congrArg String.data h) (by simp)

/--
C3: identify_device_type is a pure total function of the description:
every result is one of the seven device types; an absent or empty
description yields unknown; matching is case-insensitive (the result
depends only on the lowercased description); the keyword categories are
evaluated in the fixed priority order switch, router, host,
virtual_switch, firewall, access_point with the first match winning; a
description matching no keyword set yields unknown; and in particular a
description containing both switch and linux classifies as switch.
-/
theorem identify_device_type_spec :
    (∀ d : Option String, identify_device_type d ∈
      ["switch", "router", "host", "virtual_switch", "firewall", "access_point",
       "unknown"]) ∧
    identify_device_type none = "unknown" ∧
    identify_device_type (some "") = "unknown" ∧
    (∀ s t : String, lowerStr s = lowerStr t →
      identify_device_type (some s) = identify_device_type (some t)) ∧
    (∀ s : String,
      (anyKeyword (lowerStr s) switchKeywords = true →
        identify_device_type (some s) = "switch") ∧
      (anyKeyword (lowerStr s) switchKeywords = false →
        anyKeyword (lowerStr s) routerKeywords = true →
        identify_device_type (some s) = "router") ∧
      (anyKeyword (lowerStr s) switchKeywords = false →
        anyKeyword (lowerStr s) routerKeywords = false →
        anyKeyword (lowerStr s) hostKeywords = true →
        identify_device_type (some s) = "host") ∧
      (anyKeyword (lowerStr s) switchKeywords = false →
        anyKeyword (lowerStr s) routerKeywords = false →
        anyKeyword (lowerStr s) hostKeywords = false →
        anyKeyword (lowerStr s) virtualSwitchKeywords = true →
        identify_device_type (some s) = "virtual_switch") ∧
      (anyKeyword (lowerStr s) switchKeywords = false →
        anyKeyword (lowerStr s) routerKeywords = false →
        anyKeyword (lowerStr s) hostKeywords = false →
        anyKeyword (lowerStr s) virtualSwitchKeywords = false →
        anyKeyword (lowerStr s) firewallKeywords = true →
        identify_device_type (some s) = "firewall") ∧
      (anyKeyword (lowerStr s) switchKeywords = false →
        anyKeyword (lowerStr s) routerKeywords = false →
        anyKeyword (lowerStr s) hostKeywords = false →
        anyKeyword (lowerStr s) virtualSwitchKeywords = false →
        anyKeyword (lowerStr s) firewallKeywords = false →
        anyKeyword (lowerStr s) accessPointKeywords = true →
        identify_device_type (some s) = "access_point") ∧
      (anyKeyword (lowerStr s) switchKeywords = false →
        anyKeyword (lowerStr s) routerKeywords = false →
        anyKeyword (lowerStr s) hostKeywords = false →
        anyKeyword (lowerStr s) virtualSwitchKeywords = false →
        anyKeyword (lowerStr s) firewallKeywords = false →
        anyKeyword (lowerStr s) accessPointKeywords = false →
        identify_device_type (some s) = "unknown")) ∧
    (∀ s : String, hasSub "switch" (lowerStr s) = true →
      hasSub "linux" (lowerStr s) = true →
      identify_device_type (some s) = "switch") := by
  refine ⟨?_, rfl, rfl, ?_, ?_, ?_⟩
  · intro d
    cases d with
    | none => simp [identify_device_type]
    | some s =>
      by_cases hs : s = ""
      · simp [identify_device_type, hs]
      · simpa [identify_device_type, hs] using classifyDescription_mem (lowerStr s)
  · intro s t h
    by_cases hs : s = ""
    · have ht : t = "" :=
        (lowerStr_eq_empty_iff t).1 (h.symm.trans ((lowerStr_eq_empty_iff s).2 hs))
      rw [hs, ht]
    · have ht : t ≠ "" := by
        intro he
        exact hs ((lowerStr_eq_empty_iff s).1
          (h.trans ((lowerStr_eq_empty_iff t).2 he)))
      simp [identify_device_type, hs, ht, h]
  · intro s
    by_cases hs : s = ""
    · subst hs
      have c1 : anyKeyword (lowerStr "") switchKeywords = false := by decide
      have c2 : anyKeyword (lowerStr "") routerKeywords = false := by decide
      have c3 : anyKeyword (lowerStr "") hostKeywords = false := by decide
      have c4 : anyKeyword (lowerStr "") virtualSwitchKeywords = false := by decide
      have c5 : anyKeyword (lowerStr "") firewallKeywords = false := by decide
      have c6 : anyKeyword (lowerStr "") accessPointKeywords = false := by decide
      refine ⟨?_, ?_, ?_, ?_, ?_, ?_, ?_⟩ <;> intros <;>
        simp_all [identify_device_type]
    · refine ⟨?_, ?_, ?_, ?_, ?_, ?_, ?_⟩ <;> intros <;>
        simp_all [identify_device_type, hs, classifyDescription]
  · intro s h1 h2
    have hs : s ≠ "" := by
      intro he
      rw [he] at h1
      revert h1
      decide
    have hsw : anyKeyword (lowerStr s) switchKeywords = true := by
      simp [anyKeyword, switchKeywords, h1]
    simp [identify_device_type, hs, classifyDescription, hsw]

/-- Witness for C3: the theorem applied to a description containing
both switch and linux, which classifies as switch. -/
theorem identify_device_type_spec_witness :
    identify_device_type (some "Linux Cisco Switch") = "switch" :=
  identify_device_type_spec.2.2.2.2.2 "Linux Cisco Switch" (by decide) (by decide)

/--
C8 counterexample: the raw status string foo(bar) contains a
parenthesis whose inner text is not an integer, so get_status_text
returns the lowercased original string, which is outside
the set of the four canonical status values.
-/
theorem get_status_text_counterexample :
    get_status_text (WVal.vStr "foo(bar)") = "foo(bar)" ∧
    get_status_text (WVal.vStr "foo(bar)") ∉ ["up", "down", "testing", "unknown"] := by
  decide

/--
C8 amended: every status value produced by get_status_text is one of
up, down, testing, unknown, except that a string input containing an
opening parenthesis whose extracted parenthesised text fails integer
parsing is returned as its lowercased original form.
-/
theorem get_status_text_range (v : WVal) :
    get_status_text v ∈ ["up", "down", "testing", "unknown"] ∨
    (∃ s, v = WVal.vStr s ∧ hasSub "(" s = true ∧
      get_status_text v = lowerStr s) := by
  cases v with
  | vInt n =>
    exact Or.inl (statusMapGet_mem n)
  | vStr s =>
    by_cases hp : hasSub "(" s = true
    · cases hl : (splitChar '(' s).drop 1 with
      | nil =>
        exact Or.inr ⟨s, rfl, hp, by simp [get_status_text, hp, hl]⟩
      | cons second rest2 =>
        cases hi : pyInt ((splitChar ')' second).headD "") with
        | some n =>
          refine Or.inl ?_
          have hi2 : pyInt ((splitChar ')' second).head?.getD "") = some n := by
            simpa using hi
          have : get_status_text (WVal.vStr s) = statusMapGet n := by
            simp [get_status_text, hp, hl, hi2]
          rw [this]
          exact statusMapGet_mem n
        | none =>
          have hi2 : pyInt ((splitChar ')' second).head?.getD "") = none := by
            simpa using hi
          exact Or.inr ⟨s, rfl, hp, by simp [get_status_text, hp, hl, hi2]⟩
    · refine Or.inl ?_
      have hp2 : hasSub "(" s = false := by
        revert hp
        cases hasSub "(" s <;> simp
      by_cases ht : lowerStr s = "up" ∨ lowerStr s = "down" ∨ lowerStr s = "testing"
      · have : get_status_text (WVal.vStr s) = lowerStr s := by
          simp [get_status_text, hp2, ht]
        rw [this]
        rcases ht with h | h | h <;> simp [h]
      · cases hi : pyInt s with
        | some n =>
          have : get_status_text (WVal.vStr s) = statusMapGet n := by
            simp [get_status_text, hp2, ht, hi]
          rw [this]
          exact statusMapGet_mem n
        | none =>
          have : get_status_text (WVal.vStr s) = "unknown" := by
            simp [get_status_text, hp2, ht, hi]
          rw [this]
          simp

/--
C10: the switch-to-switch link criterion have_interconnect is
symmetric in its two device arguments.
-/
theorem have_interconnect_symm (d1 d2 : Device) :
    have_interconnect d1 d2 = have_interconnect d2 d1 := by
  simp [have_interconnect, Bool.and_comm]

/-- The clamp never goes below its left argument zero. -/
theorem pyMax_zero_nonneg (x : ℚ) : 0 ≤ pyMax 0 x := by
  unfold pyMax
  split
  · exact le_of_lt (by assumption)
  · exact le_refl 0

/-- The clamp maps a negative value to zero. -/
theorem pyMax_zero_of_neg {x : ℚ} (h : x < 0) : pyMax 0 x = 0 := by
  unfold pyMax
  rw [if_neg]
  exact fun hx => absurd hx (not_lt.mpr h.le)

/-- Structure of a calculate_rates run with nonzero time delta: the
computation succeeds, its result holds exactly the indices present in
both snapshots, and every looked-up sample is the clamped rate record
of the corresponding counter pair. -/
theorem calculate_rates_ok (cur prev : List (String × Counters)) (td : ℚ)
    (h : td ≠ 0) :
    ∃ r, calculate_rates cur prev td = .ok r ∧
      (∀ i, (alistFind i r).isSome =
        ((alistFind i cur).isSome && (alistFind i prev).isSome)) ∧
      (∀ i c p s, alistFind i cur = some c → alistFind i prev = some p →
        alistFind i r = some s → s = rateSampleOf c p td) := by
  induction cur with
  | nil =>
    refine ⟨[], rfl, by simp [alistFind], ?_⟩
    intro i c p s hc
    simp [alistFind] at hc
  | cons head rest ih =>
    obtain ⟨j, c⟩ := head
    obtain ⟨r, hr, hdom, hval⟩ := ih
    cases hp : alistFind j prev with
    | none =>
      refine ⟨r, by simp [calculate_rates, hp, hr], ?_, ?_⟩
      · intro i
        by_cases hij : j = i
        · subst hij
          rw [hdom j]
          simp [alistFind, hp]
        · rw [hdom i]
          simp [alistFind, hij]
      · intro i c2 p s hc hp2 hs
        by_cases hij : j = i
        · subst hij
          rw [hp] at hp2
          cases hp2
        · have hc2 : alistFind i rest = some c2 := by
            simpa [alistFind, hij] using hc
          exact hval i c2 p s hc2 hp2 hs
    | some p =>
      refine ⟨(j, rateSampleOf c p td) :: r,
        by simp [calculate_rates, hp, h, hr], ?_, ?_⟩
      · intro i
        by_cases hij : j = i
        · subst hij
          simp [alistFind, hp]
        · simp only [alistFind, hij, if_false]
          rw [hdom i]
      · intro i c2 p2 s hc hp2 hs
        by_cases hij : j = i
        · subst hij
          have hcc : c = c2 := by
            simpa [alistFind] using hc
          have hpp : p2 = p := by
            rw [hp] at hp2
            exact (Option.some_inj.mp hp2).symm
          have hss : s = rateSampleOf c p td := by
            have := hs
            simp [alistFind] at this
            exact this.symm
          rw [hss, hcc, hpp]
        · have hc2 : alistFind i rest = some c2 := by
            simpa [alistFind, hij] using hc
          have hs2 : alistFind i r = some s := by
            simpa [alistFind, hij] using hs
          exact hval i c2 p2 s hc2 hp2 hs2

/--
C1: for every pair of counter snapshots and positive time delta (the
specification designates non-positive deltas a caller error, settled
separately), calculate_rates succeeds and returns a rate exactly for
the indices in the intersection of the two snapshots' index sets, and
each sample is nonnegative with every counter whose current value is
strictly below its previous value rated exactly zero.
-/
theorem calculate_rates_intersection_clamp (cur prev : List (String × Counters))
    (td : ℚ) (htd : 0 < td) :
    ∃ r, calculate_rates cur prev td = .ok r ∧
      (∀ i, (alistFind i r).isSome =
        ((alistFind i cur).isSome && (alistFind i prev).isSome)) ∧
      (∀ i c p s, alistFind i cur = some c → alistFind i prev = some p →
        alistFind i r = some s →
        (0 ≤ s.in_bps ∧ 0 ≤ s.out_bps ∧ 0 ≤ s.in_pps ∧ 0 ≤ s.out_pps) ∧
        (c.in_octets < p.in_octets → s.in_bps = 0) ∧
        (c.out_octets < p.out_octets → s.out_bps = 0) ∧
        (c.in_packets < p.in_packets → s.in_pps = 0) ∧
        (c.out_packets < p.out_packets → s.out_pps = 0)) := by
  obtain ⟨r, hr, hdom, hval⟩ := calculate_rates_ok cur prev td (ne_of_gt htd)
  refine ⟨r, hr, hdom, ?_⟩
  intro i c p s hc hp hs
  rw [hval i c p s hc hp hs]
  have clamp : ∀ a b : Int, a < b → pyMax 0 (((a - b : Int) : ℚ) / td) = 0 := by
    intro a b hab
    have hnum : ((a - b : Int) : ℚ) < 0 := by
      have : (a - b : Int) < 0 := sub_neg.mpr hab
      exact_mod_cast this
    exact pyMax_zero_of_neg (div_neg_of_neg_of_pos hnum htd)
  refine ⟨⟨pyMax_zero_nonneg _, pyMax_zero_nonneg _, pyMax_zero_nonneg _,
    pyMax_zero_nonneg _⟩, ?_, ?_, ?_, ?_⟩ <;> intro hlt
  · exact clamp _ _ hlt
  · exact clamp _ _ hlt
  · exact clamp _ _ hlt
  · exact clamp _ _ hlt

/-- The previous counter snapshot of the worked polling example: an
interface with 1000 inbound octets. -/
def pollPrevious : List (String × Counters) :=
  [("1", { in_octets := 1000, in_packets := 0, in_errors := 0,
           out_octets := 0, out_packets := 0, out_errors := 0 })]

/-- The current counter snapshot of the worked polling example: the
same interface with 2000 inbound octets. -/
def pollCurrent : List (String × Counters) :=
  [("1", { in_octets := 2000, in_packets := 0, in_errors := 0,
           out_octets := 0, out_packets := 0, out_errors := 0 })]

/-- Witness for C1: the theorem instantiated on the worked polling
example with a delta of five seconds. -/
theorem calculate_rates_intersection_clamp_witness :
    ∃ r, calculate_rates pollCurrent pollPrevious 5 = .ok r ∧
      (∀ i, (alistFind i r).isSome =
        ((alistFind i pollCurrent).isSome && (alistFind i pollPrevious).isSome)) ∧
      (∀ i c p s, alistFind i pollCurrent = some c →
        alistFind i pollPrevious = some p → alistFind i r = some s →
        (0 ≤ s.in_bps ∧ 0 ≤ s.out_bps ∧ 0 ≤ s.in_pps ∧ 0 ≤ s.out_pps) ∧
        (c.in_octets < p.in_octets → s.in_bps = 0) ∧
        (c.out_octets < p.out_octets → s.out_bps = 0) ∧
        (c.in_packets < p.in_packets → s.in_pps = 0) ∧
        (c.out_packets < p.out_packets → s.out_pps = 0)) :=
  calculate_rates_intersection_clamp pollCurrent pollPrevious 5 (by decide)

/-- A common index forces a division, so a zero delta errors. -/
theorem calculate_rates_zero_error (cur prev : List (String × Counters))
    (i : String) (hc : (alistFind i cur).isSome = true)
    (hp : (alistFind i prev).isSome = true) :
    calculate_rates cur prev 0 = .error () := by
  induction cur with
  | nil => simp [alistFind] at hc
  | cons head rest ih =>
    obtain ⟨j, c⟩ := head
    cases hj : alistFind j prev with
    | some p => simp [calculate_rates, hj]
    | none =>
      by_cases hij : j = i
      · subst hij
        rw [hj] at hp
        simp at hp
      · have hc2 : (alistFind i rest).isSome = true := by
          simpa [alistFind, hij] using hc
        simpa [calculate_rates, hj] using ih hc2

/--
C4 counterexample: with a shared interface index and a zero time
delta, calculate_rates reaches the Python division by zero and the
resulting ZeroDivisionError escapes; the call does not return an empty
result.
-/
theorem calculate_rates_zero_delta_counterexample :
    calculate_rates pollCurrent pollPrevious 0 = .error () ∧
    calculate_rates pollCurrent pollPrevious 0 ≠ .ok [] := by
  constructor
  · rfl
  · intro h
    rw [show calculate_rates pollCurrent pollPrevious 0 = .error () from rfl] at h
    cases h

/--
C4 amended: calculate_rates has no guard on the time delta.  For every
delta, it returns an empty result exactly when the two snapshots share
no interface index; when they share an index, a zero delta makes the
division by zero raise out of the function instead of returning an
empty result (and a negative delta, also a caller error per the
specification, computes rates rather than returning an empty result).
-/
theorem calculate_rates_no_delta_guard :
    (∀ (cur prev : List (String × Counters)) (td : ℚ),
      calculate_rates cur prev td = .ok [] ↔
      ∀ i, ¬((alistFind i cur).isSome = true ∧ (alistFind i prev).isSome = true)) ∧
    (∀ (cur prev : List (String × Counters)) (i : String),
      (alistFind i cur).isSome = true → (alistFind i prev).isSome = true →
      calculate_rates cur prev 0 = .error ()) := by
  constructor
  · intro cur prev td
    induction cur with
    | nil =>
      simp [calculate_rates, alistFind]
    | cons head rest ih =>
      obtain ⟨j, c⟩ := head
      cases hj : alistFind j prev with
      | none =>
        rw [show calculate_rates ((j, c) :: rest) prev td =
          calculate_rates rest prev td by simp [calculate_rates, hj]]
        rw [ih]
        constructor
        · intro hall i
          by_cases hij : j = i
          · subst hij
            rw [hj]
            simp
          · intro hand
            refine hall i ⟨?_, hand.2⟩
            simpa [alistFind, hij] using hand.1
        · intro hall i
          intro hand
          by_cases hij : j = i
          · subst hij
            rw [hj] at hand
            simp at hand
          · refine hall i ⟨?_, hand.2⟩
            simpa [alistFind, hij] using hand.1
      | some p =>
        by_cases htd : td = 0
        · subst htd
          constructor
          · intro h
            rw [show calculate_rates ((j, c) :: rest) prev 0 = .error ()
              by simp [calculate_rates, hj]] at h
            cases h
          · intro hall
            exact absurd ⟨by simp [alistFind], by simp [hj]⟩ (hall j)
        · obtain ⟨r, hr, hdom, _⟩ :=
            calculate_rates_ok ((j, c) :: rest) prev td htd
          constructor
          · intro h
            rw [hr] at h
            have hrnil : r = [] := by
              cases h
              rfl
            have := hdom j
            rw [hrnil] at this
            simp [alistFind, hj] at this
          · intro hall
            exact absurd ⟨by simp [alistFind], by simp [hj]⟩ (hall j)
  · exact calculate_rates_zero_error

/-- Witness for C4: the amended theorem instantiated on snapshots with
no shared index, and on the worked polling example at delta zero. -/
theorem calculate_rates_no_delta_guard_witness :
    calculate_rates pollCurrent [] 0 = .ok [] ∧
    calculate_rates pollCurrent pollPrevious 0 = .error () :=
  ⟨(calculate_rates_no_delta_guard.1 pollCurrent [] 0).mpr
      (by intro i; simp [alistFind]),
   calculate_rates_no_delta_guard.2 pollCurrent pollPrevious "1"
      (by decide) (by decide)⟩

/-- The rate sample of the worked polling example: 1000 octets over
five seconds is 200 bytes per second and 0.0016 megabits per second. -/
def pollSample : RateSample :=
  { in_bps := 200, out_bps := 0, in_pps := 0, out_pps := 0,
    in_mbps := 0.0016, out_mbps := 0 }

/-- Evaluation of calculate_rates on the worked polling example. -/
theorem calculate_rates_poll_eq :
    calculate_rates pollCurrent pollPrevious 5 = .ok [("1", pollSample)] := by
  simp only [calculate_rates, pollCurrent, pollPrevious, pollSample, alistFind,
    rateSampleOf, pyMax]
  norm_num

/--
C9: the derived Mbps fields of every rate sample calculate_rates
produces are the exact linear transform bps times eight over one
million of the bps fields, and on the worked example of inbound octets
going from 1000 to 2000 over a five-second delta the computed sample
has in_bps exactly 200 and in_mbps exactly 0.0016.
-/
theorem calculate_rates_mbps_transform :
    (∀ (cur prev : List (String × Counters)) (td : ℚ)
      (r : List (String × RateSample)),
      calculate_rates cur prev td = .ok r →
      ∀ e ∈ r, e.2.in_mbps = e.2.in_bps * 8 / 1000000 ∧
        e.2.out_mbps = e.2.out_bps * 8 / 1000000) ∧
    (∃ s, calculate_rates pollCurrent pollPrevious 5 = .ok [("1", s)] ∧
      s.in_bps = 200 ∧ s.in_mbps = 0.0016) := by
  constructor
  · intro cur prev td
    induction cur with
    | nil =>
      intro r h
      cases h
      intro e he
      simp at he
    | cons head rest ih =>
      obtain ⟨j, c⟩ := head
      intro r h
      cases hj : alistFind j prev with
      | none =>
        rw [show calculate_rates ((j, c) :: rest) prev td =
          calculate_rates rest prev td by simp [calculate_rates, hj]] at h
        exact ih r h
      | some p =>
        by_cases htd : td = 0
        · subst htd
          rw [show calculate_rates ((j, c) :: rest) prev 0 = .error ()
            by simp [calculate_rates, hj]] at h
          cases h
        · cases hrest : calculate_rates rest prev td with
          | error e =>
            rw [show calculate_rates ((j, c) :: rest) prev td = .error e
              by simp [calculate_rates, hj, htd, hrest]] at h
            cases h
          | ok r2 =>
            rw [show calculate_rates ((j, c) :: rest) prev td =
              .ok ((j, rateSampleOf c p td) :: r2)
              by simp [calculate_rates, hj, htd, hrest]] at h
            cases h
            intro e he
            rcases List.mem_cons.mp he with he1 | he2
            · rw [he1]
              exact ⟨rfl, rfl⟩
            · exact ih r2 hrest e he2
  · exact ⟨pollSample, calculate_rates_poll_eq, rfl, rfl⟩

/-- Witness for C9: the universal part of the theorem applied to the
worked polling example. -/
theorem calculate_rates_mbps_transform_witness :
    pollSample.in_mbps = pollSample.in_bps * 8 / 1000000 ∧
    pollSample.out_mbps = pollSample.out_bps * 8 / 1000000 :=
  calculate_rates_mbps_transform.1 pollCurrent pollPrevious 5
    [("1", pollSample)] calculate_rates_poll_eq ("1", pollSample) (by simp)

/-- A falsy optional string makes the Python or take its fallback. -/
theorem pyOrStr_falsy {v : Option String} {d : String}
    (h : v = none ∨ v = some "") : pyOrStr v d = d := by
  rcases h with h | h <;> rw [h] <;> simp [pyOrStr]

/-- A truthy optional string wins over the fallback. -/
theorem pyOrStr_truthy {s d : String} (h : s ≠ "") : pyOrStr (some s) d = s := by
  simp [pyOrStr, h]

/-- A probe environment whose uptime query failed while everything
else succeeded, with an empty interface table. -/
def probeEnvNoUptime : ProbeEnv :=
  { sysDescr := some "Linux ubuntu", sysName := some "ubuntu",
    sysUptime := none, sysContact := some "ops", sysLocation := some "lab",
    ifaceData := .ok ([], []), now := "2025-01-01T00:00:00" }

/-- The same environment with an empty-string description result. -/
def probeEnvEmptyDescr : ProbeEnv :=
  { probeEnvNoUptime with sysDescr := some "" }

/--
C6 counterexample: with every query but uptime answered, snmp_probe
returns a Device whose stored uptime is the raw missing value, not the
claimed Unknown fallback; and a successful description query returning
the empty string makes the probe return None even though the query did
not return Unavailable, refuting the stated if-and-only-if.
-/
theorem snmp_probe_counterexample :
    Option.map Device.system_uptime (snmp_probe "public" probeEnvNoUptime "10.0.0.1") =
      some none ∧
    Option.map Device.system_uptime (snmp_probe "public" probeEnvNoUptime "10.0.0.1") ≠
      some (some "Unknown") ∧
    snmp_probe "public" probeEnvEmptyDescr "10.0.0.1" = none := by
  decide

/--
C6 amended: snmp_probe returns None exactly when the
system-description query returns Unavailable or the empty string; on
success, a missing or empty name falls back to Device-address and a
nonempty name is kept, missing contact and location fall back to
Unknown, the uptime is stored as the raw query result with no
fallback, and a failure while gathering the interface or counter
tables never causes None, leaving the interface table empty instead.
-/
theorem snmp_probe_spec (community : String) (env : ProbeEnv) (ip : String) :
    (snmp_probe community env ip = none ↔
      env.sysDescr = none ∨ env.sysDescr = some "") ∧
    (∀ d, snmp_probe community env ip = some d →
      ((env.sysName = none ∨ env.sysName = some "") →
        d.system_name = "Device-" ++ ip) ∧
      (∀ s, env.sysName = some s → s ≠ "" → d.system_name = s) ∧
      d.system_uptime = env.sysUptime ∧
      ((env.sysContact = none ∨ env.sysContact = some "") →
        d.system_contact = "Unknown") ∧
      ((env.sysLocation = none ∨ env.sysLocation = some "") →
        d.system_location = "Unknown") ∧
      (env.ifaceData = .error () → d.interfaces = [])) := by
  cases henv : env.sysDescr with
  | none =>
    constructor
    · simp [snmp_probe, henv]
    · intro d hd
      rw [show snmp_probe community env ip = none by simp [snmp_probe, henv]] at hd
      cases hd
  | some sd =>
    by_cases hsd : sd = ""
    · subst hsd
      constructor
      · simp [snmp_probe, henv]
      · intro d hd
        rw [show snmp_probe community env ip = none
          by simp [snmp_probe, henv]] at hd
        cases hd
    · have hd0 : snmp_probe community env ip =
          some (probeDeviceOf community env ip sd) := by
        simp [snmp_probe, henv, hsd]
      constructor
      · rw [hd0]
        simp [henv, hsd]
      · intro d hd
        rw [hd0] at hd
        cases hd
        refine ⟨?_, ?_, rfl, ?_, ?_, ?_⟩
        · intro h
          exact pyOrStr_falsy h
        · intro s hs hne
          show pyOrStr env.sysName ("Device-" ++ ip) = s
          rw [hs, pyOrStr_truthy hne]
        · intro h
          exact pyOrStr_falsy h
        · intro h
          exact pyOrStr_falsy h
        · intro he
          show probeInterfacesOf env.ifaceData = []
          rw [he]
          rfl

/-- A probe environment where every optional identity query failed and
gathering the interface tables raised. -/
def probeEnvFallback : ProbeEnv :=
  { sysDescr := some "Linux ubuntu", sysName := none, sysUptime := none,
    sysContact := none, sysLocation := none, ifaceData := .error (),
    now := "2025-01-01T00:00:00" }

/-- The device snmp_probe builds for probeEnvFallback. -/
def probeDeviceFallback : Device :=
  { ip := "10.0.0.7", system_name := "Device-10.0.0.7",
    system_description := "Linux ubuntu", system_uptime := none,
    system_contact := "Unknown", system_location := "Unknown",
    discovered_at := "2025-01-01T00:00:00", device_type := "host",
    snmp_community := "public", interfaces := [], neighbors := [] }

/-- Witness for C6: the amended theorem applied to an environment in
which every optional query failed. -/
theorem snmp_probe_spec_witness :
    probeDeviceFallback.system_name = "Device-10.0.0.7" ∧
    probeDeviceFallback.system_uptime = none ∧
    probeDeviceFallback.system_contact = "Unknown" ∧
    probeDeviceFallback.system_location = "Unknown" ∧
    probeDeviceFallback.interfaces = [] :=
  have h := (snmp_probe_spec "public" probeEnvFallback "10.0.0.7").2
    probeDeviceFallback (by decide)
  ⟨h.1 (Or.inl rfl), h.2.2.1.trans rfl, h.2.2.2.1 (Or.inl rfl),
   h.2.2.2.2.1 (Or.inl rfl), h.2.2.2.2.2 rfl⟩

/--
C7 counterexample: a table-walk whose underlying command could not be
performed at all returns the empty mapping, the very value returned
for a successfully queried empty table, not a distinct Unavailable
outcome.
-/
theorem snmp_walk_failure_counterexample :
    snmp_walk none = ([] : List (String × WVal)) ∧
    snmp_walk none = snmp_walk (some "") := by
  exact ⟨rfl, rfl⟩

/--
C7 amended: snmp_walk always returns a plain mapping; a failed command
and a successful query of an empty table both yield the empty mapping,
so the two cases are indistinguishable to callers, while successful
nonempty outputs parse into nonempty typed mappings.
-/
theorem snmp_walk_failure_empty :
    snmp_walk none = ([] : List (String × WVal)) ∧
    snmp_walk (some "") = [] ∧
    snmp_walk (some "iso.3.6.1.2.1.2.2.1.2.1 = STRING: eth0") =
      [("1", WVal.vStr "eth0")] ∧
    snmp_walk (some "iso.3.6.1.2.1.2.2.1.10.2 = Counter32: 12345") =
      [("2", WVal.vInt 12345)] := by
  exact ⟨rfl, rfl, by decide, by decide⟩

/-- A discovery environment in which every address answers the ping
and the probe. -/
def discoverEnvAll : DiscoverEnv :=
  { reachable := fun _ => true, probe := fun _ => some probeDeviceFallback }

/-- A discovery environment in which no address answers the ping. -/
def discoverEnvNone : DiscoverEnv :=
  { reachable := fun _ => false, probe := fun _ => none }

/-- A registry holding one previously discovered device. -/
def discoverReg : List (String × Device) :=
  [("192.168.0.9", probeDeviceFallback)]

/--
C5 counterexample: a malformed address range makes
discover_network_range return the empty mapping with the registry
untouched, which is the very same outcome as a successful discovery of
a valid range that found no devices, so the rejected call is not
distinguishable by the caller as a hard failure.
-/
theorem discover_invalid_range_counterexample :
    discover_network_range discoverEnvAll "299.0.0.1/40" discoverReg =
      discover_network_range discoverEnvNone "10.0.0.0/32" discoverReg ∧
    discover_network_range discoverEnvAll "299.0.0.1/40" discoverReg =
      ([], discoverReg) := by
  constructor
  · decide
  · decide

/--
C5 amended: a malformed address range is caught inside
discover_network_range: the oracle environment is never consulted, the
call returns an empty mapping rather than an error the caller could
distinguish from an empty successful discovery, and the registry of
discovered devices is left unchanged.
-/
theorem discover_invalid_range (env : DiscoverEnv) (rng : String)
    (reg : List (String × Device)) (h : parseIPv4Network rng = none) :
    discover_network_range env rng reg = ([], reg) := by
  simp [discover_network_range, h]

/-- Witness for C5: the amended theorem applied to a malformed range
with a populated registry. -/
theorem discover_invalid_range_witness :
    discover_network_range discoverEnvAll "not-a-network" discoverReg =
      ([], discoverReg) :=
  discover_invalid_range discoverEnvAll "not-a-network" discoverReg (by decide)

/-- A fully up switch-port interface with a given name. -/
def mininetIface (nm : String) : Interface :=
  { name := nm, admin_status := "up", oper_status := "up", speed := 10000000,
    in_octets := 0, out_octets := 0, in_packets := 0, out_packets := 0 }

/-- A device exposing the three switch-port interface names, keyed in
the registry below at an address other than 127.0.0.1. -/
def mininetDevice : Device :=
  { ip := "10.0.0.5", system_name := "mn-host", system_description := "Linux mn",
    system_uptime := some "(123) 0:00:01.23", system_contact := "Unknown",
    system_location := "Unknown", discovered_at := "t", device_type := "host",
    snmp_community := "public",
    interfaces := [("2", mininetIface "s1-eth1"), ("3", mininetIface "s1-eth2"),
      ("4", mininetIface "s1-eth3")],
    neighbors := [] }

/--
C2 counterexample: a registry holding exactly one Device whose
interfaces are named s1-eth1, s1-eth2 and s1-eth3 but whose address is
not 127.0.0.1 takes the general path of build_topology: no s1 switch
node, no host_link entries, and the original device node stays in the
output, refuting the claim as stated for that registry.
-/
theorem build_topology_counterexample :
    ((build_topology [("10.0.0.5", mininetDevice)]).nodes.filter
      (fun n => n.id == "s1")).length = 0 ∧
    ((build_topology [("10.0.0.5", mininetDevice)]).nodes.filter
      (fun n => n.type == "host")).length = 1 ∧
    (build_topology [("10.0.0.5", mininetDevice)]).links = [] ∧
    ((build_topology [("10.0.0.5", mininetDevice)]).nodes.map Node.id) =
      ["10.0.0.5"] := by
  decide

/--
C2 amended: for a registry containing exactly one Device keyed at
address 127.0.0.1 whose interfaces are named s1-eth1, s1-eth2 and
s1-eth3, build_topology produces exactly one switch node with id s1,
exactly three host nodes, and exactly three host_link links each with
s1 as their target endpoint, and the original device node is dropped
from the output node set.
-/
theorem build_topology_mininet_localhost (dev : Device)
    (h : dev.interfaces.map (fun p => p.2.name) =
      ["s1-eth1", "s1-eth2", "s1-eth3"]) :
    ((build_topology [("127.0.0.1", dev)]).nodes.filter
      (fun n => n.id == "s1")).length = 1 ∧
    ((build_topology [("127.0.0.1", dev)]).nodes.filter
      (fun n => n.type == "switch")).map Node.id = ["s1"] ∧
    ((build_topology [("127.0.0.1", dev)]).nodes.filter
      (fun n => n.type == "host")).length = 3 ∧
    (build_topology [("127.0.0.1", dev)]).links.length = 3 ∧
    (∀ l ∈ (build_topology [("127.0.0.1", dev)]).links,
      l.type = "host_link" ∧ l.target = "s1") ∧
    (∀ n ∈ (build_topology [("127.0.0.1", dev)]).nodes, n.id ≠ "127.0.0.1") := by
  obtain ⟨x, y, z, hxyz⟩ := List.length_eq_three.mp
    (by simpa using congrArg List.length h)
  rw [hxyz] at h
  simp only [List.map_cons, List.map_nil, List.cons.injEq, and_true] at h
  obtain ⟨h1, h2, h3⟩ := h
  have hid1 : ("h" ++ toString (1 : Nat)) = "h1" := by decide
  have hid2 : ("h" ++ toString (2 : Nat)) = "h2" := by decide
  have hid3 : ("h" ++ toString (3 : Nat)) = "h3" := by decide
  refine ⟨?_, ?_, ?_, ?_, ?_, ?_⟩ <;>
    simp [build_topology, alistFind, hxyz, h1, h2, h3, isMininetIfName,
      mkHostNodesLinks, mkBaseNode, hid1, hid2, hid3, hasSub, hasSubAux, leadsWith]

/-- Witness for C2: the amended theorem applied to a concrete
localhost registry exposing the three switch-port names. -/
theorem build_topology_mininet_localhost_witness :
    ((build_topology [("127.0.0.1", mininetDevice)]).nodes.filter
      (fun n => n.id == "s1")).length = 1 ∧
    ((build_topology [("127.0.0.1", mininetDevice)]).nodes.filter
      (fun n => n.type == "switch")).map Node.id = ["s1"] ∧
    ((build_topology [("127.0.0.1", mininetDevice)]).nodes.filter
      (fun n => n.type == "host")).length = 3 ∧
    (build_topology [("127.0.0.1", mininetDevice)]).links.length = 3 ∧
    (∀ l ∈ (build_topology [("127.0.0.1", mininetDevice)]).links,
      l.type = "host_link" ∧ l.target = "s1") ∧
    (∀ n ∈ (build_topology [("127.0.0.1", mininetDevice)]).nodes,
      n.id ≠ "127.0.0.1") :=
  build_topology_mininet_localhost mininetDevice (by decide)

end NMS
